import Mathlib

/-!
Shallow embedding of the weather MCP server (`src/main.rs`): the data shapes
decoded from the third-party weather API, the two pure presenters
(`format_alerts`, `format_forecast`), the URL construction of the two tools,
and the fetch pipeline `make_request` / `get_alerts` / `get_forecast`.
HTTP itself is modelled as an explicit outcome value (connection failure, or a
response carrying a status code and a JSON body); JSON bodies are modelled as
an abstract syntax tree and deserialization follows serde derive semantics
(every declared field required, string-typed, unknown fields ignored).
-/

/-- Mirrors `struct Live` in `src/main.rs`: one live-weather report, all fields
transmitted as strings. -/
structure Live where
  province : String
  city : String
  adcode : String
  weather : String
  temperature : String
  winddirection : String
  windpower : String
  humidity : String
  reporttime : String
  temperature_float : String
  humidity_float : String
deriving DecidableEq, Repr

/-- Mirrors `struct AlertResponse` in `src/main.rs`: the live-weather envelope. -/
structure AlertResponse where
  status : String
  count : String
  info : String
  infocode : String
  lives : List Live
deriving DecidableEq, Repr

/-- Mirrors `struct DayForecast` in `src/main.rs`. -/
structure DayForecast where
  date : String
  dayweather : String
  nightweather : String
  daytemp : String
  nighttemp : String
  daywind : String
  nightwind : String
  daypower : String
  nightpower : String
deriving DecidableEq, Repr

/-- Mirrors `struct Forecast` in `src/main.rs`: one city's forecast envelope. -/
structure Forecast where
  city : String
  casts : List DayForecast
deriving DecidableEq, Repr

/-- Mirrors `struct PointsResponse` in `src/main.rs`: the forecast envelope. -/
structure PointsResponse where
  status : String
  count : String
  info : String
  infocode : String
  forecasts : List Forecast
deriving DecidableEq, Repr

/-- JSON values, as far as the decoded shapes need them. -/
inductive Json where
  | str (s : String)
  | num (n : Int)
  | bool (b : Bool)
  | null
  | arr (items : List Json)
  | obj (fields : List (String × Json))

/-- Field lookup in a JSON object, serde-style: a declared field must be
present; unknown fields are ignored. -/
def getField (fields : List (String × Json)) (name : String) : Except String Json :=
  match fields.lookup name with
  | some v => Except.ok v
  | none => Except.error ("missing field " ++ name)

/-- Expect a JSON string, as serde does for a `String`-typed field. -/
def getStr (j : Json) : Except String String :=
  match j with
  | Json.str s => Except.ok s
  | _ => Except.error "invalid type: expected a string"

/-- Expect a JSON array, as serde does for a `Vec`-typed field. -/
def getArr (j : Json) : Except String (List Json) :=
  match j with
  | Json.arr items => Except.ok items
  | _ => Except.error "invalid type: expected a sequence"

/-- Deserialization of `Live` (serde derive: every field required, string-typed). -/
def decodeLive (j : Json) : Except String Live :=
  match j with
  | Json.obj fs => do
    let province ← getStr (← getField fs "province")
    let city ← getStr (← getField fs "city")
    let adcode ← getStr (← getField fs "adcode")
    let weather ← getStr (← getField fs "weather")
    let temperature ← getStr (← getField fs "temperature")
    let winddirection ← getStr (← getField fs "winddirection")
    let windpower ← getStr (← getField fs "windpower")
    let humidity ← getStr (← getField fs "humidity")
    let reporttime ← getStr (← getField fs "reporttime")
    let temperature_float ← getStr (← getField fs "temperature_float")
    let humidity_float ← getStr (← getField fs "humidity_float")
    Except.ok ⟨province, city, adcode, weather, temperature, winddirection,
      windpower, humidity, reporttime, temperature_float, humidity_float⟩
  | _ => Except.error "invalid type: expected struct Live"

/-- Deserialization of the live-weather envelope `AlertResponse`. -/
def decodeAlertResponse (j : Json) : Except String AlertResponse :=
  match j with
  | Json.obj fs => do
    let status ← getStr (← getField fs "status")
    let count ← getStr (← getField fs "count")
    let info ← getStr (← getField fs "info")
    let infocode ← getStr (← getField fs "infocode")
    let livesJson ← getArr (← getField fs "lives")
    let lives ← livesJson.mapM decodeLive
    Except.ok ⟨status, count, info, infocode, lives⟩
  | _ => Except.error "invalid type: expected struct AlertResponse"

/-- Deserialization of `DayForecast`. -/
def decodeDayForecast (j : Json) : Except String DayForecast :=
  match j with
  | Json.obj fs => do
    let date ← getStr (← getField fs "date")
    let dayweather ← getStr (← getField fs "dayweather")
    let nightweather ← getStr (← getField fs "nightweather")
    let daytemp ← getStr (← getField fs "daytemp")
    let nighttemp ← getStr (← getField fs "nighttemp")
    let daywind ← getStr (← getField fs "daywind")
    let nightwind ← getStr (← getField fs "nightwind")
    let daypower ← getStr (← getField fs "daypower")
    let nightpower ← getStr (← getField fs "nightpower")
    Except.ok ⟨date, dayweather, nightweather, daytemp, nighttemp,
      daywind, nightwind, daypower, nightpower⟩
  | _ => Except.error "invalid type: expected struct DayForecast"

/-- Deserialization of one `Forecast` envelope. -/
def decodeForecast (j : Json) : Except String Forecast :=
  match j with
  | Json.obj fs => do
    let city ← getStr (← getField fs "city")
    let castsJson ← getArr (← getField fs "casts")
    let casts ← castsJson.mapM decodeDayForecast
    Except.ok ⟨city, casts⟩
  | _ => Except.error "invalid type: expected struct Forecast"

/-- Deserialization of the forecast envelope `PointsResponse`. -/
def decodePointsResponse (j : Json) : Except String PointsResponse :=
  match j with
  | Json.obj fs => do
    let status ← getStr (← getField fs "status")
    let count ← getStr (← getField fs "count")
    let info ← getStr (← getField fs "info")
    let infocode ← getStr (← getField fs "infocode")
    let forecastsJson ← getArr (← getField fs "forecasts")
    let forecasts ← forecastsJson.mapM decodeForecast
    Except.ok ⟨status, count, info, infocode, forecasts⟩
  | _ => Except.error "invalid type: expected struct PointsResponse"

/-- The per-report block pushed by the loop body of `format_alerts` in
`src/main.rs`: the `format!` string
"省份: \x7b\x7d\n城市: \x7b\x7d\n天气: \x7b\x7d\n温度: \x7b\x7d°\n风向: \x7b\x7d(\x7b\x7d)\n---\n"
applied to province, city, weather, temperature, winddirection, windpower. -/
def liveBlock (alert : Live) : String :=
  "省份: " ++ alert.province ++ "\n城市: " ++ alert.city ++ "\n天气: " ++
    alert.weather ++ "\n温度: " ++ alert.temperature ++ "°\n风向: " ++
    alert.winddirection ++ "(" ++ alert.windpower ++ ")\n---\n"

/-- Mirrors `fn format_alerts` in `src/main.rs`: the empty sequence yields a
fixed sentinel, otherwise the loop appends one block per report to an
initially-empty accumulator. -/
def format_alerts (alerts : List Live) : String :=
  if alerts.isEmpty then "No active alerts found."
  else alerts.foldl (fun result alert => result ++ liveBlock alert) ""

/-- The daytime summary line of a forecast block (note the trailing space
before the newline, exactly as in the `format!` string in `src/main.rs`). -/
def dayLine (day : DayForecast) : String :=
  "白天: " ++ day.dayweather ++ " " ++ day.daytemp ++ "° " ++ day.daywind ++
    "(" ++ day.daypower ++ ") \n"

/-- The nighttime summary line of a forecast block. -/
def nightLine (day : DayForecast) : String :=
  "夜间: " ++ day.nightweather ++ " " ++ day.nighttemp ++ "° " ++
    day.nightwind ++ "(" ++ day.nightpower ++ ")\n"

/-- The per-day block pushed by the inner loop body of `format_forecast`:
date line, daytime summary line, nighttime summary line, separator line. -/
def dayBlock (day : DayForecast) : String :=
  "日期: " ++ day.date ++ "\n" ++ dayLine day ++ nightLine day ++ "---\n"

/-- Mirrors `fn format_forecast` in `src/main.rs`: the empty envelope sequence
yields a fixed sentinel, otherwise envelopes are iterated in order and within
each envelope the day entries in order, appending one block per day. -/
def format_forecast (periods : List Forecast) : String :=
  if periods.isEmpty then "No forecast data available."
  else periods.foldl
    (fun result period =>
      period.casts.foldl (fun result day => result ++ dayBlock day) result) ""

/-- Mirrors `const NWS_API_BASE` in `src/main.rs`. -/
def NWS_API_BASE : String :=
  "https://restapi.amap.com/v3/weather/weatherInfo?parameters"

/-- The static API key embedded in both request URLs in `src/main.rs`. -/
def apiKey : String := "3e7f6bcddfcbe0f1619f5842c9226908"

/-- The URL built by `get_alerts`:
`format!` of base, key, city code and JSON output flag, no extensions flag. -/
def alertsUrl (state : String) : String :=
  NWS_API_BASE ++ "&key=3e7f6bcddfcbe0f1619f5842c9226908&city=" ++ state ++
    "&output=json"

/-- The URL built by `get_forecast`: same as `alertsUrl` plus the
"extensions=all" flag. -/
def forecastUrl (city : String) : String :=
  NWS_API_BASE ++ "&key=3e7f6bcddfcbe0f1619f5842c9226908&city=" ++ city ++
    "&output=json&extensions=all"

/-- An HTTP response: a status code and a JSON body. The body is kept as a
`Json` value; deserialization against the expected shape happens in
`make_request`, as `response.json::<T>()` does. -/
structure HttpResponse where
  status : Nat
  body : Json

/-- The outcome of the underlying `client.get(url).send().await`: either a
transport-level failure with an error message, or a response. -/
inductive NetOutcome where
  | failure (msg : String)
  | success (resp : HttpResponse)

/-- The status code compared against, `reqwest::StatusCode::OK`. -/
def okStatus : Nat := 200

/-- The display text of a non-OK status, as interpolated into the error
message by `make_request`. -/
def statusText (status : Nat) : String := toString status

/-- Mirrors `async fn make_request<T>` in `src/main.rs`. The generic
deserializer `T: DeserializeOwned` is passed explicitly as `decode`; the
network is passed explicitly as a `NetOutcome`. A transport failure, a non-OK
status and a decode failure all collapse into a plain `String` error carrying
the offending URL. -/
def make_request {T : Type} (decode : Json → Except String T) (url : String)
    (net : NetOutcome) : Except String T :=
  match net with
  | NetOutcome.failure e =>
    Except.error ("Failed to make request to " ++ url ++ ": " ++ e)
  | NetOutcome.success resp =>
    if resp.status = okStatus then
      match decode resp.body with
      | Except.ok v => Except.ok v
      | Except.error e =>
        Except.error ("Failed to parse request to " ++ url ++ ": " ++ e)
    else
      Except.error ("Failed to make request to " ++ url ++ ": " ++
        statusText resp.status)

/-- Mirrors `async fn get_alerts` in `src/main.rs`: build the URL, fetch the
live-weather envelope, format its `lives` on success, and substitute the
fixed fallback sentinel on any error. -/
def get_alerts (state : String) (net : NetOutcome) : String :=
  match make_request decodeAlertResponse (alertsUrl state) net with
  | Except.ok alerts => format_alerts alerts.lives
  | Except.error _ => "No alerts found or an error occurred."

/-- Mirrors `async fn get_forecast` in `src/main.rs`: build the URL with the
extensions flag, fetch the forecast envelope, format its `forecasts` on
success, and substitute the fixed fallback sentinel on any error. -/
def get_forecast (city : String) (net : NetOutcome) : String :=
  match make_request decodePointsResponse (forecastUrl city) net with
  | Except.ok points => format_forecast points.forecasts
  | Except.error _ => "No forecast found or an error occurred."

/-- Concatenation of a list of blocks in order (specification-side helper used
to state that a formatter's output is exactly one block per input, in input
order). -/
def strConcat : List String → String
  | [] => ""
  | s :: rest => s ++ strConcat rest

/-- The Beijing live report decoded from the live-weather JSON body given in
the testable properties. -/
def liveBj : Live :=
  ⟨"北京", "北京市", "110000", "晴", "20", "西北", "3", "40",
   "2024-01-01 12:00:00", "20.0", "40.0"⟩

/-- The live-weather JSON body of the testable properties, as a JSON value. -/
def liveBodyJson : Json :=
  Json.obj [("status", Json.str "1"), ("count", Json.str "1"),
    ("info", Json.str "OK"), ("infocode", Json.str "10000"),
    ("lives", Json.arr [Json.obj [("province", Json.str "北京"),
      ("city", Json.str "北京市"), ("adcode", Json.str "110000"),
      ("weather", Json.str "晴"), ("temperature", Json.str "20"),
      ("winddirection", Json.str "西北"), ("windpower", Json.str "3"),
      ("humidity", Json.str "40"),
      ("reporttime", Json.str "2024-01-01 12:00:00"),
      ("temperature_float", Json.str "20.0"),
      ("humidity_float", Json.str "40.0")]])]

/-- A variant of `liveBodyJson` with different envelope metadata (status,
count, info, infocode) but the same `lives` payload. -/
def liveBodyJsonAlt : Json :=
  Json.obj [("status", Json.str "0"), ("count", Json.str "7"),
    ("info", Json.str "SOMETHING_ELSE"), ("infocode", Json.str "99999"),
    ("lives", Json.arr [Json.obj [("province", Json.str "北京"),
      ("city", Json.str "北京市"), ("adcode", Json.str "110000"),
      ("weather", Json.str "晴"), ("temperature", Json.str "20"),
      ("winddirection", Json.str "西北"), ("windpower", Json.str "3"),
      ("humidity", Json.str "40"),
      ("reporttime", Json.str "2024-01-01 12:00:00"),
      ("temperature_float", Json.str "20.0"),
      ("humidity_float", Json.str "40.0")]])]

/-- A concrete day forecast entry. -/
def dayBj : DayForecast :=
  ⟨"2024-01-01", "晴", "多云", "10", "-2", "西北", "北", "3", "2"⟩

/-- A second concrete day forecast entry. -/
def dayBj2 : DayForecast :=
  ⟨"2024-01-02", "多云", "阴", "8", "-3", "北", "东北", "2", "1"⟩

/-- A concrete forecast envelope with two day entries. -/
def forecastBj : Forecast := ⟨"北京市", [dayBj, dayBj2]⟩

/-- A JSON value for one day forecast entry. -/
def dayBjJson : Json :=
  Json.obj [("date", Json.str "2024-01-01"), ("dayweather", Json.str "晴"),
    ("nightweather", Json.str "多云"), ("daytemp", Json.str "10"),
    ("nighttemp", Json.str "-2"), ("daywind", Json.str "西北"),
    ("nightwind", Json.str "北"), ("daypower", Json.str "3"),
    ("nightpower", Json.str "2")]

/-- A forecast JSON body with one city envelope holding one day entry. -/
def forecastBodyJson : Json :=
  Json.obj [("status", Json.str "1"), ("count", Json.str "1"),
    ("info", Json.str "OK"), ("infocode", Json.str "10000"),
    ("forecasts", Json.arr [Json.obj [("city", Json.str "北京市"),
      ("casts", Json.arr [dayBjJson])]])]

/-- A variant of `forecastBodyJson` with different envelope metadata but the
same `forecasts` payload. -/
def forecastBodyJsonAlt : Json :=
  Json.obj [("status", Json.str "0"), ("count", Json.str "3"),
    ("info", Json.str "SOMETHING_ELSE"), ("infocode", Json.str "99999"),
    ("forecasts", Json.arr [Json.obj [("city", Json.str "北京市"),
      ("casts", Json.arr [dayBjJson])]])]

/-- The body of a live block: everything before the final separator line, so
that a block is exactly the body followed by the line "---". -/
def liveBlockBody (alert : Live) : String :=
  "省份: " ++ alert.province ++ "\n城市: " ++ alert.city ++ "\n天气: " ++
    alert.weather ++ "\n温度: " ++ alert.temperature ++ "°\n风向: " ++
    alert.winddirection ++ "(" ++ alert.windpower ++ ")"

/-- The body of a day block: everything before the final separator line. -/
def dayBlockBody (day : DayForecast) : String :=
  "日期: " ++ day.date ++ "\n" ++ dayLine day ++ nightLine day

theorem foldl_append_eq_strConcat {α : Type} (f : α → String) :
    ∀ (l : List α) (acc : String),
      l.foldl (fun result a => result ++ f a) acc = acc ++ strConcat (l.map f) := by
  intro l
  induction l with
  | nil => intro acc; simp [strConcat, String.append_empty]
  | cons a rest ih =>
    intro acc
    simp only [List.foldl_cons, List.map_cons, strConcat]
    rw [ih, String.append_assoc]

theorem forecast_foldl_eq_strConcat :
    ∀ (l : List Forecast) (acc : String),
      l.foldl (fun result period =>
          period.casts.foldl (fun result day => result ++ dayBlock day) result) acc
        = acc ++
          strConcat (l.map (fun period => strConcat (period.casts.map dayBlock))) := by
  intro l
  induction l with
  | nil => intro acc; simp [strConcat, String.append_empty]
  | cons p rest ih =>
    intro acc
    simp only [List.foldl_cons, List.map_cons, strConcat]
    rw [foldl_append_eq_strConcat, ih, String.append_assoc]

theorem strConcat_all_empty :
    ∀ l : List String, (∀ s ∈ l, s = "") → strConcat l = "" := by
  intro l
  induction l with
  | nil => intro _; rfl
  | cons s rest ih =>
    intro h
    have hs : s = "" := h s (List.mem_cons_self s rest)
    have hr : strConcat rest = "" := ih fun x hx => h x (List.mem_cons_of_mem s hx)
    simp [strConcat, hs, hr, String.empty_append]

theorem strInfix_of_split (pat x y s : String) (h : x ++ pat ++ y = s) :
    List.IsInfix pat.data s.data := by
  subst h
  exact ⟨x.data, y.data, by simp [String.data_append]⟩

theorem strPrefix_of_split (pat y s : String) (h : pat ++ y = s) :
    List.IsPrefix pat.data s.data := by
  subst h
  exact ⟨y.data, by simp [String.data_append]⟩

/-- Claim C3: `format_alerts` applied to the empty report sequence returns
exactly "No active alerts found.", and `format_forecast` applied to the empty
envelope sequence returns exactly "No forecast data available.". -/
theorem claim_C3 :
    format_alerts [] = "No active alerts found." ∧
    format_forecast [] = "No forecast data available." := ⟨rfl, rfl⟩

/-- Claim C4: for every non-empty report sequence, the output of
`format_alerts` is exactly one block per input report, concatenated in input
order, and every block is its body followed by a final line consisting solely
of the separator "---". -/
theorem claim_C4 (alerts : List Live) (a : Live) (h : alerts ≠ []) :
    format_alerts alerts = strConcat (alerts.map liveBlock) ∧
    liveBlock a = liveBlockBody a ++ "\n---\n" := by
  constructor
  · obtain ⟨x, rest, rfl⟩ : ∃ x rest, alerts = x :: rest := by
      cases alerts with
      | nil => exact absurd rfl h
      | cons x rest => exact ⟨x, rest, rfl⟩
    rw [show format_alerts (x :: rest)
        = (x :: rest).foldl (fun result alert => result ++ liveBlock alert) ""
      from rfl]
    rw [foldl_append_eq_strConcat, String.empty_append]
  · rw [liveBlock, liveBlockBody]
    rw [show (")\n---\n" : String) = ")" ++ "\n---\n" from rfl]
    simp [String.append_assoc]

/-- Closed instance of claim C4 at the Beijing report. -/
theorem claim_C4_witness :
    format_alerts [liveBj] = strConcat ([liveBj].map liveBlock) ∧
    liveBlock liveBj = liveBlockBody liveBj ++ "\n---\n" :=
  claim_C4 [liveBj] liveBj (by decide)

/-- Claim C5: decoding the given live-weather JSON body as the live-weather
envelope succeeds with the Beijing report as its payload, and formatting that
report sequence yields a string containing the five literal substrings. -/
theorem claim_C5 :
    decodeAlertResponse liveBodyJson =
      Except.ok ⟨"1", "1", "OK", "10000", [liveBj]⟩ ∧
    List.IsInfix "省份: 北京".data (format_alerts [liveBj]).data ∧
    List.IsInfix "城市: 北京市".data (format_alerts [liveBj]).data ∧
    List.IsInfix "天气: 晴".data (format_alerts [liveBj]).data ∧
    List.IsInfix "温度: 20°".data (format_alerts [liveBj]).data ∧
    List.IsInfix "风向: 西北(3)".data (format_alerts [liveBj]).data :=
  ⟨rfl, by decide, by decide, by decide, by decide, by decide⟩

/-- Claim C7: both formatters are total functions of their input sequence and
are deterministic — identical input sequences yield identical output
strings. -/
theorem claim_C7 (xs ys : List Live) (ps qs : List Forecast)
    (h1 : xs = ys) (h2 : ps = qs) :
    format_alerts xs = format_alerts ys ∧
    format_forecast ps = format_forecast qs := by
  subst h1
  subst h2
  exact ⟨rfl, rfl⟩

/-- Closed instance of claim C7 at concrete inputs. -/
theorem claim_C7_witness :
    format_alerts [liveBj] = format_alerts [liveBj] ∧
    format_forecast [forecastBj] = format_forecast [forecastBj] :=
  claim_C7 [liveBj] [liveBj] [forecastBj] [forecastBj] rfl rfl

/-- Claim C9: a non-empty envelope sequence whose every envelope has an empty
day sequence formats to the empty string, not to the "No forecast data
available." sentinel — the sentinel is produced only for an empty outer
sequence. -/
theorem claim_C9 (envs : List Forecast) (hne : envs ≠ [])
    (hall : ∀ f ∈ envs, f.casts = []) :
    format_forecast envs = "" ∧
    format_forecast envs ≠ "No forecast data available." := by
  have hmain : format_forecast envs = "" := by
    obtain ⟨x, rest, rfl⟩ : ∃ x rest, envs = x :: rest := by
      cases envs with
      | nil => exact absurd rfl hne
      | cons x rest => exact ⟨x, rest, rfl⟩
    rw [show format_forecast (x :: rest)
        = (x :: rest).foldl (fun result period => period.casts.foldl
            (fun result day => result ++ dayBlock day) result) "" from rfl]
    rw [forecast_foldl_eq_strConcat, String.empty_append]
    apply strConcat_all_empty
    intro s hs
    rw [List.mem_map] at hs
    obtain ⟨p, hp, rfl⟩ := hs
    rw [hall p hp]
    rfl
  exact ⟨hmain, by rw [hmain]; decide⟩

/-- Closed instance of claim C9 at a one-envelope sequence with no days. -/
theorem claim_C9_witness :
    format_forecast [⟨"北京市", []⟩] = "" ∧
    format_forecast [⟨"北京市", []⟩] ≠ "No forecast data available." :=
  claim_C9 [⟨"北京市", []⟩] (by decide)
    (by intro f hf; rw [List.mem_singleton] at hf; rw [hf])

/-- Claim C6: for a forecast envelope with exactly two day entries,
`format_forecast` on the one-element envelope sequence is exactly the two day
blocks in day order; each block is its body followed by the final separator
line "---", and each block contains the daytime summary line and the
nighttime summary line. -/
theorem claim_C6 (f : Forecast) (d1 d2 : DayForecast) (h : f.casts = [d1, d2]) :
    format_forecast [f] = dayBlock d1 ++ dayBlock d2 ∧
    dayBlock d1 = dayBlockBody d1 ++ "---\n" ∧
    dayBlock d2 = dayBlockBody d2 ++ "---\n" ∧
    List.IsInfix (dayLine d1).data (dayBlock d1).data ∧
    List.IsInfix (nightLine d1).data (dayBlock d1).data ∧
    List.IsInfix (dayLine d2).data (dayBlock d2).data ∧
    List.IsInfix (nightLine d2).data (dayBlock d2).data := by
  refine ⟨?_, ?_, ?_, ?_, ?_, ?_, ?_⟩
  · rw [show format_forecast [f]
        = [f].foldl (fun result period => period.casts.foldl
            (fun result day => result ++ dayBlock day) result) "" from rfl]
    simp only [List.foldl_cons, List.foldl_nil]
    rw [h]
    simp only [List.foldl_cons, List.foldl_nil, String.empty_append]
  · rw [dayBlock, dayBlockBody]
  · rw [dayBlock, dayBlockBody]
  · exact strInfix_of_split (dayLine d1) ("日期: " ++ d1.date ++ "\n")
      (nightLine d1 ++ "---\n") (dayBlock d1)
      (by rw [dayBlock]; simp [String.append_assoc])
  · exact strInfix_of_split (nightLine d1) ("日期: " ++ d1.date ++ "\n" ++ dayLine d1)
      "---\n" (dayBlock d1) (by rw [dayBlock])
  · exact strInfix_of_split (dayLine d2) ("日期: " ++ d2.date ++ "\n")
      (nightLine d2 ++ "---\n") (dayBlock d2)
      (by rw [dayBlock]; simp [String.append_assoc])
  · exact strInfix_of_split (nightLine d2) ("日期: " ++ d2.date ++ "\n" ++ dayLine d2)
      "---\n" (dayBlock d2) (by rw [dayBlock])

/-- Closed instance of claim C6 at the concrete two-day Beijing envelope. -/
theorem claim_C6_witness :
    format_forecast [forecastBj] = dayBlock dayBj ++ dayBlock dayBj2 ∧
    dayBlock dayBj = dayBlockBody dayBj ++ "---\n" ∧
    dayBlock dayBj2 = dayBlockBody dayBj2 ++ "---\n" ∧
    List.IsInfix (dayLine dayBj).data (dayBlock dayBj).data ∧
    List.IsInfix (nightLine dayBj).data (dayBlock dayBj).data ∧
    List.IsInfix (dayLine dayBj2).data (dayBlock dayBj2).data ∧
    List.IsInfix (nightLine dayBj2).data (dayBlock dayBj2).data :=
  claim_C6 forecastBj dayBj dayBj2 rfl

/-- Claim C1 as stated is false: on the very same fetch failure,
`get_forecast` returns "No forecast found or an error occurred.", not the
"No alerts found or an error occurred." sentinel the claim asserts for both
tools. -/
theorem claim_C1_counterexample :
    get_forecast "110000" (NetOutcome.failure "connection refused") =
      "No forecast found or an error occurred." ∧
    get_forecast "110000" (NetOutcome.failure "connection refused") ≠
      "No alerts found or an error occurred." := ⟨rfl, by decide⟩

/-- Claim C1, amended: on every fetch failure each tool returns its own fixed
fallback sentinel — `get_alerts` returns "No alerts found or an error
occurred." and `get_forecast` returns "No forecast found or an error
occurred." — so the tool caller always receives a displayable string and
never an error value. -/
theorem claim_C1_amended (state city : String) (net : NetOutcome)
    (ea ef : String) :
    (make_request decodeAlertResponse (alertsUrl state) net = Except.error ea →
      get_alerts state net = "No alerts found or an error occurred.") ∧
    (make_request decodePointsResponse (forecastUrl city) net = Except.error ef →
      get_forecast city net = "No forecast found or an error occurred.") := by
  constructor
  · intro herr
    unfold get_alerts
    rw [herr]
  · intro herr
    unfold get_forecast
    rw [herr]

/-- Closed instance of the amended claim C1 at a concrete transport failure. -/
theorem claim_C1_amended_witness :
    get_alerts "110000" (NetOutcome.failure "boom") =
      "No alerts found or an error occurred." ∧
    get_forecast "110000" (NetOutcome.failure "boom") =
      "No forecast found or an error occurred." :=
  ⟨(claim_C1_amended "110000" "110000" (NetOutcome.failure "boom")
      ("Failed to make request to " ++ alertsUrl "110000" ++ ": " ++ "boom")
      ("Failed to make request to " ++ forecastUrl "110000" ++ ": " ++ "boom")).1
      rfl,
   (claim_C1_amended "110000" "110000" (NetOutcome.failure "boom")
      ("Failed to make request to " ++ alertsUrl "110000" ++ ": " ++ "boom")
      ("Failed to make request to " ++ forecastUrl "110000" ++ ": " ++ "boom")).2
      rfl⟩

/-- Claim C10: the envelope metadata fields (status, count, info, infocode)
are never inspected after decoding — two successful fetches whose decoded
envelopes agree on the payload array yield identical tool output, for each
tool. -/
theorem claim_C10 (state city : String) (net1 net2 netf1 netf2 : NetOutcome)
    (r1 r2 : AlertResponse) (p1 p2 : PointsResponse)
    (ha1 : make_request decodeAlertResponse (alertsUrl state) net1 = Except.ok r1)
    (ha2 : make_request decodeAlertResponse (alertsUrl state) net2 = Except.ok r2)
    (hl : r1.lives = r2.lives)
    (hf1 : make_request decodePointsResponse (forecastUrl city) netf1 = Except.ok p1)
    (hf2 : make_request decodePointsResponse (forecastUrl city) netf2 = Except.ok p2)
    (hp : p1.forecasts = p2.forecasts) :
    get_alerts state net1 = get_alerts state net2 ∧
    get_forecast city netf1 = get_forecast city netf2 := by
  constructor
  · unfold get_alerts
    rw [ha1, ha2]
    exact congrArg format_alerts hl
  · unfold get_forecast
    rw [hf1, hf2]
    exact congrArg format_forecast hp

/-- Closed instance of claim C10: two 200-status responses whose bodies differ
in all four metadata fields but agree on the payload produce identical tool
output. -/
theorem claim_C10_witness :
    get_alerts "110000" (NetOutcome.success ⟨200, liveBodyJson⟩) =
      get_alerts "110000" (NetOutcome.success ⟨200, liveBodyJsonAlt⟩) ∧
    get_forecast "110000" (NetOutcome.success ⟨200, forecastBodyJson⟩) =
      get_forecast "110000" (NetOutcome.success ⟨200, forecastBodyJsonAlt⟩) :=
  claim_C10 "110000" "110000"
    (NetOutcome.success ⟨200, liveBodyJson⟩)
    (NetOutcome.success ⟨200, liveBodyJsonAlt⟩)
    (NetOutcome.success ⟨200, forecastBodyJson⟩)
    (NetOutcome.success ⟨200, forecastBodyJsonAlt⟩)
    ⟨"1", "1", "OK", "10000", [liveBj]⟩
    ⟨"0", "7", "SOMETHING_ELSE", "99999", [liveBj]⟩
    ⟨"1", "1", "OK", "10000", [⟨"北京市", [dayBj]⟩]⟩
    ⟨"0", "3", "SOMETHING_ELSE", "99999", [⟨"北京市", [dayBj]⟩]⟩
    rfl rfl rfl rfl rfl rfl

theorem errMsg_parts (head tail url m : String)
    (hsplit : head = "Failed to " ++ tail) :
    List.IsPrefix "Failed to ".data (head ++ url ++ ": " ++ m).data ∧
    List.IsInfix url.data (head ++ url ++ ": " ++ m).data := by
  constructor
  · apply strPrefix_of_split "Failed to " (tail ++ url ++ ": " ++ m)
    rw [hsplit]
    simp [String.append_assoc]
  · apply strInfix_of_split url head (": " ++ m)
    simp [String.append_assoc]

/-- Claim C2: `make_request` returns a decoded payload exactly when the HTTP
status is exactly OK and the body deserializes as the expected type; every
failure — connection failure, any non-OK status, or decode failure — is a
single string-typed error value that carries the offending URL and a
descriptive message ("Failed to ..."). -/
theorem claim_C2 {T : Type} (decode : Json → Except String T) (url : String)
    (net : NetOutcome) :
    (∀ v : T, make_request decode url net = Except.ok v ↔
      ∃ resp : HttpResponse, net = NetOutcome.success resp ∧
        resp.status = okStatus ∧ decode resp.body = Except.ok v) ∧
    (∀ e : String, make_request decode url net = Except.error e →
      List.IsPrefix "Failed to ".data e.data ∧ List.IsInfix url.data e.data) := by
  cases net with
  | failure m =>
    constructor
    · intro v
      constructor
      · intro hok
        exact absurd hok (by simp [make_request])
      · rintro ⟨resp, hresp, -, -⟩
        exact absurd hresp (by simp)
    · intro e he
      have heq : ("Failed to make request to " ++ url ++ ": " ++ m) = e := by
        simpa [make_request] using he
      subst heq
      exact errMsg_parts "Failed to make request to " "make request to " url m rfl
  | success resp =>
    by_cases hst : resp.status = okStatus
    · cases hdec : decode resp.body with
      | ok w =>
        have hmk : make_request decode url (NetOutcome.success resp)
            = Except.ok w := by
          simp [make_request, hst, hdec]
        constructor
        · intro v
          constructor
          · intro hok
            rw [hmk] at hok
            obtain rfl : w = v := Except.ok.inj hok
            exact ⟨resp, rfl, hst, hdec⟩
          · rintro ⟨resp2, hr2, -, hd2⟩
            obtain rfl : resp = resp2 := NetOutcome.success.inj hr2
            rw [hmk, ← hdec, hd2]
        · intro e he
          rw [hmk] at he
          exact absurd he (by simp)
      | error d =>
        have hmk : make_request decode url (NetOutcome.success resp)
            = Except.error ("Failed to parse request to " ++ url ++ ": " ++ d) := by
          simp [make_request, hst, hdec]
        constructor
        · intro v
          constructor
          · intro hok
            rw [hmk] at hok
            exact absurd hok (by simp)
          · rintro ⟨resp2, hr2, -, hd2⟩
            obtain rfl : resp = resp2 := NetOutcome.success.inj hr2
            rw [hdec] at hd2
            exact absurd hd2 (by simp)
        · intro e he
          rw [hmk] at he
          have heq : ("Failed to parse request to " ++ url ++ ": " ++ d) = e :=
            Except.error.inj he
          subst heq
          exact errMsg_parts "Failed to parse request to " "parse request to " url d rfl
    · have hmk : make_request decode url (NetOutcome.success resp)
          = Except.error ("Failed to make request to " ++ url ++ ": " ++
              statusText resp.status) := by
        simp [make_request, hst]
      constructor
      · intro v
        constructor
        · intro hok
          rw [hmk] at hok
          exact absurd hok (by simp)
        · rintro ⟨resp2, hr2, hs2, -⟩
          obtain rfl : resp = resp2 := NetOutcome.success.inj hr2
          exact absurd hs2 hst
      · intro e he
        rw [hmk] at he
        have heq : ("Failed to make request to " ++ url ++ ": " ++
            statusText resp.status) = e := Except.error.inj he
        subst heq
        exact errMsg_parts "Failed to make request to " "make request to " url
          (statusText resp.status) rfl

/-- Closed instance of claim C2: on a concrete transport failure the error
message starts with "Failed to " and contains the offending URL. -/
theorem claim_C2_witness :
    List.IsPrefix "Failed to ".data
      ("Failed to make request to " ++ alertsUrl "110000" ++ ": " ++ "boom").data ∧
    List.IsInfix (alertsUrl "110000").data
      ("Failed to make request to " ++ alertsUrl "110000" ++ ": " ++ "boom").data :=
  (claim_C2 decodeAlertResponse (alertsUrl "110000") (NetOutcome.failure "boom")).2
    ("Failed to make request to " ++ alertsUrl "110000" ++ ": " ++ "boom") rfl

/-- Claim C8: for every location code (a digit string), the URL built by
`get_alerts` contains the static API key, the location code, and the JSON
output flag but no "extensions" parameter, while the URL built by
`get_forecast` contains the same parameters plus the "extensions=all" flag. -/
theorem claim_C8 (state : String) (h : state.data.all Char.isDigit = true) :
    List.IsInfix apiKey.data (alertsUrl state).data ∧
    List.IsInfix state.data (alertsUrl state).data ∧
    List.IsInfix "output=json".data (alertsUrl state).data ∧
    ¬ List.IsInfix "extensions".data (alertsUrl state).data ∧
    List.IsInfix apiKey.data (forecastUrl state).data ∧
    List.IsInfix state.data (forecastUrl state).data ∧
    List.IsInfix "output=json".data (forecastUrl state).data ∧
    List.IsInfix "extensions=all".data (forecastUrl state).data := by
  have hkey : ("&key=" ++ apiKey ++ "&city=" : String)
      = "&key=3e7f6bcddfcbe0f1619f5842c9226908&city=" := rfl
  refine ⟨?_, ?_, ?_, ?_, ?_, ?_, ?_, ?_⟩
  · apply strInfix_of_split apiKey (NWS_API_BASE ++ "&key=")
      ("&city=" ++ state ++ "&output=json")
    rw [alertsUrl, ← hkey]
    simp [String.append_assoc]
  · apply strInfix_of_split state
      (NWS_API_BASE ++ "&key=3e7f6bcddfcbe0f1619f5842c9226908&city=")
      "&output=json"
    rw [alertsUrl]
  · apply strInfix_of_split "output=json"
      (NWS_API_BASE ++ "&key=3e7f6bcddfcbe0f1619f5842c9226908&city=" ++ state ++ "&")
      ""
    rw [alertsUrl, String.append_empty,
      show ("&output=json" : String) = "&" ++ "output=json" from rfl]
    simp [String.append_assoc]
  · intro hinf
    have hx : 'x' ∈ (alertsUrl state).data := hinf.subset (by decide)
    rw [alertsUrl] at hx
    simp only [String.data_append, List.mem_append] at hx
    rcases hx with ((hx | hx) | hx) | hx
    · exact absurd hx (by decide)
    · exact absurd hx (by decide)
    · exact absurd (List.all_eq_true.mp h 'x' hx) (by decide)
    · exact absurd hx (by decide)
  · apply strInfix_of_split apiKey (NWS_API_BASE ++ "&key=")
      ("&city=" ++ state ++ "&output=json&extensions=all")
    rw [forecastUrl, ← hkey]
    simp [String.append_assoc]
  · apply strInfix_of_split state
      (NWS_API_BASE ++ "&key=3e7f6bcddfcbe0f1619f5842c9226908&city=")
      "&output=json&extensions=all"
    rw [forecastUrl]
  · apply strInfix_of_split "output=json"
      (NWS_API_BASE ++ "&key=3e7f6bcddfcbe0f1619f5842c9226908&city=" ++ state ++ "&")
      "&extensions=all"
    rw [forecastUrl,
      show ("&output=json&extensions=all" : String)
        = "&" ++ "output=json" ++ "&extensions=all" from rfl]
    simp [String.append_assoc]
  · apply strInfix_of_split "extensions=all"
      (NWS_API_BASE ++ "&key=3e7f6bcddfcbe0f1619f5842c9226908&city=" ++ state ++
        "&output=json&")
      ""
    rw [forecastUrl, String.append_empty,
      show ("&output=json&extensions=all" : String)
        = "&output=json&" ++ "extensions=all" from rfl]
    simp [String.append_assoc]

/-- Closed instance of claim C8 at the Beijing location code "110000". -/
theorem claim_C8_witness :
    List.IsInfix apiKey.data (alertsUrl "110000").data ∧
    List.IsInfix ("110000" : String).data (alertsUrl "110000").data ∧
    List.IsInfix "output=json".data (alertsUrl "110000").data ∧
    ¬ List.IsInfix "extensions".data (alertsUrl "110000").data ∧
    List.IsInfix apiKey.data (forecastUrl "110000").data ∧
    List.IsInfix ("110000" : String).data (forecastUrl "110000").data ∧
    List.IsInfix "output=json".data (forecastUrl "110000").data ∧
    List.IsInfix "extensions=all".data (forecastUrl "110000").data :=
  claim_C8 "110000" (by decide)
